import Mathlib

/-!
Verification development for the task-level robot-arm control core of the
coro-examples repository (LynxMotion AL5D arm: Frame algebra, inverse
kinematics, servo setpoint mapping, motion executor, gripper controller,
and the demonstration program `robotProgrammingApplication.cpp`).

The demonstration program (`main`) is present in the sources; the control
core itself (Frame class, IK solver, setpoint mapper, gripper, transport)
is declared and used there but its implementation file is not part of the
source tree, so those components are modelled from the specification's
explicit formulas (each such definition is marked `Modelled from the
spec:`). Floating-point arithmetic is idealised as real arithmetic.
-/

namespace RobotArm

open Real

/- ## Link-length constants (shoulder-to-elbow and elbow-to-wrist, millimetres) -/

/-- Modelled from the spec: the shoulder-to-elbow link length constant, 146 mm. -/
def humerus : ℝ := 146

/-- Modelled from the spec: the elbow-to-wrist link length constant, 187 mm. -/
def ulna : ℝ := 187

/- ## Frame algebra -/

/-- Modelled from the spec: a Frame is a rigid-body pose, a 3x3 rotation
matrix plus a 3x1 translation vector (the implementation file defining the
C++ `Frame` class is not in the source tree). -/
structure Frame where
  R : Matrix (Fin 3) (Fin 3) ℝ
  t : Fin 3 → ℝ

/-- Modelled from the spec: `compose(A, B)` is the Frame whose rotation is
`Ra·Rb` and translation is `Ra·tb + ta` (the C++ `operator*`). -/
def compose (A B : Frame) : Frame :=
  ⟨A.R * B.R, A.R.mulVec B.t + A.t⟩

/-- Modelled from the spec: `invert(F)` is the Frame with rotation `Rᵗ` and
translation `−Rᵗ·t` (the C++ `inv`). -/
def invert (F : Frame) : Frame :=
  ⟨F.R.transpose, -(F.R.transpose.mulVec F.t)⟩

/-- The spec's invariant on Frames: the rotation submatrix is orthonormal. -/
def Frame.orthonormal (F : Frame) : Prop :=
  F.R.transpose * F.R = 1

/-- Modelled from the spec: `translate(x,y,z)`, a pure-translation Frame
(the C++ `trans` builder). -/
def trans (x y z : ℝ) : Frame :=
  ⟨1, ![x, y, z]⟩

/-- Modelled from the spec: rotation Frame about the x axis, angle given in
degrees and converted to radians internally (the C++ `rotx` builder). -/
noncomputable def rotx (deg : ℝ) : Frame :=
  ⟨Matrix.of ![![1, 0, 0],
               ![0, Real.cos (deg * π / 180), -Real.sin (deg * π / 180)],
               ![0, Real.sin (deg * π / 180), Real.cos (deg * π / 180)]], 0⟩

/-- Modelled from the spec: rotation Frame about the y axis, angle given in
degrees and converted to radians internally (the C++ `roty` builder). -/
noncomputable def roty (deg : ℝ) : Frame :=
  ⟨Matrix.of ![![Real.cos (deg * π / 180), 0, Real.sin (deg * π / 180)],
               ![0, 1, 0],
               ![-Real.sin (deg * π / 180), 0, Real.cos (deg * π / 180)]], 0⟩

/-- Modelled from the spec: rotation Frame about the z axis, angle given in
degrees and converted to radians internally (the C++ `rotz` builder). -/
noncomputable def rotz (deg : ℝ) : Frame :=
  ⟨Matrix.of ![![Real.cos (deg * π / 180), -Real.sin (deg * π / 180), 0],
               ![Real.sin (deg * π / 180), Real.cos (deg * π / 180), 0],
               ![0, 0, 1]], 0⟩

/-- The identity Frame (identity rotation, zero translation). -/
def idFrame : Frame := ⟨1, 0⟩

/- ## Robot configuration and the servo setpoint mapper -/

/-- The wrist mechanical variant recorded in the configuration file
(`WRIST <lightweight|heavyduty>`). -/
inductive WristType
  | lightweight
  | heavyduty
deriving DecidableEq

/-- Modelled from the spec: the per-robot calibration record loaded once per
session (home pulse widths, pulse-width-per-degree calibration, per-joint
physical-assembly sign, wrist type, channel assignment, default speed). -/
structure RobotConfig where
  speed : ℝ
  channel : Fin 5 → ℕ
  home : Fin 5 → ℝ
  degreeCal : Fin 5 → ℝ
  baseDirection : Fin 5 → ℝ
  wrist : WristType

/-- Index of the wrist-roll joint in the five-joint ordering. -/
def rollJoint : Fin 5 := 4

/-- Modelled from the spec: the per-joint direction multiplier computed once
at configuration-load time; for the wrist-roll joint only it is additionally
negated when the wrist type is heavy-duty. -/
def loadDirection (cfg : RobotConfig) (i : Fin 5) : ℝ :=
  if i = rollJoint ∧ cfg.wrist = WristType.heavyduty then
    -(cfg.baseDirection i)
  else
    cfg.baseDirection i

/-- Modelled from the spec: the servo setpoint mapper,
`pulse_width[i] = home[i] + direction[i] * angle_degrees[i] * degree_calibration[i]`. -/
def pulseWidth (cfg : RobotConfig) (i : Fin 5) (angleDeg : ℝ) : ℝ :=
  cfg.home i + loadDirection cfg i * angleDeg * cfg.degreeCal i

/- ## Joint angles, poses and motion results -/

/-- The five joint angles produced by the IK solver (radians). -/
structure JointAngles where
  base : ℝ
  shoulder : ℝ
  elbow : ℝ
  wristPitch : ℝ
  wristRoll : ℝ

/-- A wrist-reference pose handed to the IK solver: the wrist point
(relative to the shoulder, millimetres) together with the desired
end-orientation reduced to its pitch and roll components (radians). -/
structure Pose where
  x : ℝ
  y : ℝ
  z : ℝ
  pitch : ℝ
  roll : ℝ

/-- Modelled from the spec: the motion result taxonomy of §7. -/
inductive MotionResult
  | success
  | unreachablePoseError
  | gripperRangeError
  | transmissionError
deriving DecidableEq

/-- One per-channel servo setpoint of a transport command:
`#<channel> P<pulse_width_us> S<speed>`. -/
structure ServoSetpoint where
  channel : ℕ
  pulse : ℝ
  speed : ℝ

/-- One transport command: the tuple of per-channel setpoints flushed
atomically per `move`/`goHome`/`grasp` call. -/
def ServoCommand := List ServoSetpoint

/- ## Inverse kinematics -/

/-- Modelled from the spec: the two-argument arctangent used for the
base-yaw and elevation angles, with the C `atan2(y, x)` convention (the
angle of the point `(x, y)`, in `(-π, π]`). -/
noncomputable def atan2 (y x : ℝ) : ℝ := Complex.arg ⟨x, y⟩

/-- Modelled from the spec: the squared straight-line shoulder-to-wrist
distance, computed (as in the solver) from the horizontal projection
`r = √(x² + y²)` and the height `z` of the wrist point. -/
noncomputable def wristD2 (x y z : ℝ) : ℝ :=
  Real.sqrt (x ^ 2 + y ^ 2) ^ 2 + z ^ 2

/-- Modelled from the spec: the law-of-cosines argument of the elbow solve,
`(l₁² + l₂² − d²) / (2·l₁·l₂)`. -/
noncomputable def cosElbowArg (x y z : ℝ) : ℝ :=
  (humerus ^ 2 + ulna ^ 2 - wristD2 x y z) / (2 * humerus * ulna)

/-- Modelled from the spec: the law-of-cosines argument of the
shoulder-triangle solve, `(l₁² + d² − l₂²) / (2·l₁·d)`. -/
noncomputable def cosShoulderArg (x y z : ℝ) : ℝ :=
  (humerus ^ 2 + wristD2 x y z - ulna ^ 2) /
    (2 * humerus * Real.sqrt (wristD2 x y z))

/-- Modelled from the spec: the solver's reachability test — both
law-of-cosines arguments must lie in `[-1, 1]`. -/
def reachable (x y z : ℝ) : Prop :=
  -1 ≤ cosElbowArg x y z ∧ cosElbowArg x y z ≤ 1 ∧
  -1 ≤ cosShoulderArg x y z ∧ cosShoulderArg x y z ≤ 1

noncomputable instance (x y z : ℝ) : Decidable (reachable x y z) := by
  unfold reachable
  infer_instance

/-- Modelled from the spec: the decoupled-wrist closed-form IK solver.
Base yaw by arctangent of the horizontal projection; elbow by the law of
cosines (fixed elbow-up branch, interior angle measured by `arccos`);
shoulder pitch as elevation angle plus triangle base angle; wrist pitch as
the desired pitch minus the orientation accumulated by the first three
joints; wrist roll from the desired roll, sign-reversed for the heavy-duty
wrist.  Any law-of-cosines argument outside `[-1, 1]` is reported as an
unreachable-pose failure (`none`). -/
noncomputable def ik (w : WristType) (x y z pitch roll : ℝ) : Option JointAngles :=
  if reachable x y z then
    some { base := atan2 x y
           shoulder := atan2 z (Real.sqrt (x ^ 2 + y ^ 2)) +
                       Real.arccos (cosShoulderArg x y z)
           elbow := Real.arccos (cosElbowArg x y z) - π
           wristPitch := pitch -
             ((atan2 z (Real.sqrt (x ^ 2 + y ^ 2)) +
               Real.arccos (cosShoulderArg x y z)) +
              (Real.arccos (cosElbowArg x y z) - π))
           wristRoll := match w with
                        | WristType.heavyduty => -roll
                        | WristType.lightweight => roll }
  else none

/-- The IK solver applied to a `Pose` record. -/
noncomputable def ikP (w : WristType) (P : Pose) : Option JointAngles :=
  ik w P.x P.y P.z P.pitch P.roll

/- ## Forward kinematics (same link-length constants) -/

/-- Forward kinematics built from the same link-length constants: the wrist
point reached by a tuple of joint angles, together with the accumulated
pitch of the wrist and the roll it commands (sign-reversed for the
heavy-duty wrist, mirroring the mechanical coupling). -/
noncomputable def fk (w : WristType) (a : JointAngles) : Pose :=
  { x := (humerus * Real.cos a.shoulder +
          ulna * Real.cos (a.shoulder + a.elbow)) * Real.sin a.base
    y := (humerus * Real.cos a.shoulder +
          ulna * Real.cos (a.shoulder + a.elbow)) * Real.cos a.base
    z := humerus * Real.sin a.shoulder + ulna * Real.sin (a.shoulder + a.elbow)
    pitch := a.shoulder + a.elbow + a.wristPitch
    roll := match w with
            | WristType.heavyduty => -a.wristRoll
            | WristType.lightweight => a.wristRoll }

/-- The squared shoulder-to-wrist distance reached by the planar two-link
chain at relative elbow angle `e` (law of cosines). -/
noncomputable def dd2 (e : ℝ) : ℝ :=
  humerus ^ 2 + ulna ^ 2 + 2 * humerus * ulna * Real.cos e

/-- The shoulder-triangle base angle of the two-link chain at relative
elbow angle `e` (the angle at the shoulder between the first link and the
shoulder-to-wrist line). -/
noncomputable def shoulderTriangleAngle (e : ℝ) : ℝ :=
  Real.arccos ((humerus + ulna * Real.cos e) / Real.sqrt (dd2 e))

/-- The reachable-workspace joint-angle tuples of the solver's fixed branch
choice: elbow folded (relative elbow angle in `[-π, 0]`), base yaw in the
arctangent's principal range, and the wrist point strictly in front of and
not directly above or below the shoulder (elevation in `(-π/2, π/2)`). -/
def inWorkspace (a : JointAngles) : Prop :=
  -π ≤ a.elbow ∧ a.elbow ≤ 0 ∧
  -π < a.base ∧ a.base ≤ π ∧
  -(π / 2) < a.shoulder - shoulderTriangleAngle a.elbow ∧
  a.shoulder - shoulderTriangleAngle a.elbow < π / 2

/- ## Motion executor -/

/-- The five joint angles as a vector indexed consistently with the
configuration arrays. -/
def jointAngleAt (a : JointAngles) : Fin 5 → ℝ :=
  ![a.base, a.shoulder, a.elbow, a.wristPitch, a.wristRoll]

/-- Radians-to-degrees conversion at the configuration boundary. -/
noncomputable def toDegrees (rad : ℝ) : ℝ := rad * 180 / π

/-- Modelled from the spec: the ServoCommand built for a `move`, one
setpoint per joint channel, pulse widths from the setpoint mapper. -/
noncomputable def buildCommand (cfg : RobotConfig) (a : JointAngles) : ServoCommand :=
  List.ofFn fun i : Fin 5 =>
    ServoSetpoint.mk (cfg.channel i)
      (pulseWidth cfg i (toDegrees (jointAngleAt a i))) cfg.speed

/-- Modelled from the spec: `move(targetFrame)` runs IK, then setpoint
mapping, then builds and transmits one ServoCommand; it returns failure
without transmitting anything if IK fails.  The pose extraction from the
target Frame's translation and rotation submatrix is a parameter
(`extract`), since the spec leaves its exact formula to the caller-side
Frame chaining; the transport is the fire-and-forget variant of §5.  The
second component is the list of transmitted commands. -/
noncomputable def move (cfg : RobotConfig) (extract : Frame → Pose)
    (F : Frame) : MotionResult × List ServoCommand :=
  match ikP cfg.wrist (extract F) with
  | none => (MotionResult.unreachablePoseError, [])
  | some a => (MotionResult.success, [buildCommand cfg a])

/- ## Gripper controller -/

/-- Modelled from the spec: the gripper's own calibration — fully-open and
fully-closed pulse widths and the aperture (mm) at fully open. -/
structure GripperCalibration where
  fullyOpenPW : ℝ
  fullyClosedPW : ℝ
  maxAperture : ℝ

/-- Modelled from the spec: `grasp(apertureMm)` maps the aperture through
the calibrated linear relation bounded by the fully-open/fully-closed pulse
widths, and rejects out-of-range requests with `GripperRangeError` before
any transmission — they are never clamped into range.  The second
component is the list of transmitted commands. -/
noncomputable def grasp (g : GripperCalibration) (gripChannel : ℕ) (speed : ℝ)
    (aperture : ℝ) : MotionResult × List ServoCommand :=
  if aperture < 0 ∨ g.maxAperture < aperture then
    (MotionResult.gripperRangeError, [])
  else
    (MotionResult.success,
     [[ServoSetpoint.mk gripChannel
        (g.fullyClosedPW +
          (g.fullyOpenPW - g.fullyClosedPW) * aperture / g.maxAperture)
        speed]])

/- ## The demonstration program (robotProgrammingApplication.cpp, main) -/

/-- The frame variables of the demonstration program that are reused across
successive moves (`Z`, `E`, `object_grasp`, `object_approach`, `T5`). -/
structure DemoEnv where
  Z : Frame
  E : Frame
  object_grasp : Frame
  object_approach : Frame
  T5 : Frame

/-- The demo's repeated composition expression
`inv(Z) * object_grasp * object_approach * inv(E)`. -/
def demoT5 (e : DemoEnv) : Frame :=
  compose (compose (compose (invert e.Z) e.object_grasp) e.object_approach)
    (invert e.E)

/-- The demo's assignment `T5 = inv(Z) * object_grasp * object_approach * inv(E)`,
as an update of the program environment. -/
def stepT5 (e : DemoEnv) : DemoEnv :=
  { e with T5 := demoT5 e }

/-- The observable robot-facing and operator-facing effects of `main`. -/
inductive RobotAction
  | readConfig (filename : String)
  | goHomeCmd
  | waitMs (ms : ℕ)
  | printMsg (msg : String)
  | moveCmd (target : Frame)
  | graspCmd (aperture : ℝ)
  | displayErrorAndExit (msg : String)
  | promptAndExit (code : ℕ)

/-- One statement of the demonstration sequence in `main`. -/
inductive DemoStep
  | dGoHome
  | dWait (ms : ℕ)
  | dPrint (msg : String)
  | dMove (target : Frame)
  | dGrasp (aperture : ℝ)

/-- The active demonstration sequence of `main` (the first grasp section is
compiled out under `#ifdef NOCOMPILE`; the "alternative" section is active).
`eff` is `robotConfigurationData.effector_z` and `gripperOpen` the
`GRIPPER_OPEN` constant, both defined in the missing implementation file. -/
noncomputable def demoSteps (eff gripperOpen : ℝ) : List DemoStep :=
  let E := trans 0 0 eff
  let Z := trans 0 0 0
  let object_grasp := compose (compose (trans 0 187 0) (roty 180)) (rotz (-90))
  let object_approach := trans 0 0 (-100)
  [DemoStep.dGoHome,
   DemoStep.dWait 2000,
   DemoStep.dPrint "\nalign gripper with base frame\n",
   DemoStep.dMove (compose (compose (invert Z) (trans 0 187 (216 + eff))) (invert E)),
   DemoStep.dWait 5000,
   DemoStep.dPrint "\nalign gripper with base frame; rotate wrist 90 degrees\n",
   DemoStep.dMove (compose (compose (invert Z)
     (compose (trans 0 187 (216 + eff)) (rotz 90))) (invert E)),
   DemoStep.dWait 5000,
   DemoStep.dPrint "\nhome pose\n",
   DemoStep.dMove (compose (compose (invert Z)
     (compose (compose (trans 0 (187 + eff) 216) (rotz 90)) (roty 90))) (invert E)),
   DemoStep.dWait 5000,
   DemoStep.dPrint "\nhome pose, version 2\n",
   DemoStep.dMove (compose (compose (invert Z)
     (compose (compose (trans 0 (187 + eff) 216) (roty 90)) (rotx (-90)))) (invert E)),
   DemoStep.dWait 5000,
   DemoStep.dPrint "\nhome pose 20 mm above the worksurface\n",
   DemoStep.dMove (compose (compose (invert Z)
     (compose (compose (trans 0 (187 + eff) 20) (rotz 90)) (roty 90))) (invert E)),
   DemoStep.dWait 5000,
   DemoStep.dPrint "\ninitial approach pose\n",
   DemoStep.dMove (compose (compose (compose (invert Z) object_grasp)
     object_approach) (invert E)),
   DemoStep.dWait 3000,
   DemoStep.dGrasp gripperOpen,
   DemoStep.dWait 1000,
   DemoStep.dPrint "\ngrasp pose\n",
   DemoStep.dMove (compose (compose (invert Z) object_grasp) (invert E)),
   DemoStep.dWait 3000,
   DemoStep.dGrasp 15,
   DemoStep.dWait 1000,
   DemoStep.dPrint "\napproach approach pose\n",
   DemoStep.dMove (compose (compose (compose (invert Z) object_grasp)
     object_approach) (invert E)),
   DemoStep.dWait 3000,
   DemoStep.dPrint "\nexample pose\n",
   DemoStep.dMove (compose (compose (invert Z)
     (compose (compose (trans 0 187 (216 - eff)) (roty 180)) (rotz (-90)))) (invert E)),
   DemoStep.dWait 3000,
   DemoStep.dPrint "\nhorizontally right pose\n",
   DemoStep.dMove (compose (compose (invert Z)
     (compose (compose (trans 100 187 (216 - eff)) (roty 180)) (rotz (-90)))) (invert E)),
   DemoStep.dWait 3000,
   DemoStep.dPrint "\nabove the tray pose\n",
   DemoStep.dMove (compose (compose (invert Z)
     (compose (compose (trans 150 100 100) (roty 180)) (rotz (-90)))) (invert E)),
   DemoStep.dWait 3000,
   DemoStep.dGrasp gripperOpen,
   DemoStep.dWait 1000,
   DemoStep.dPrint "\nexample pose\n",
   DemoStep.dMove (compose (compose (invert Z)
     (compose (compose (trans 0 187 (216 - eff)) (roty 180)) (rotz (-90)))) (invert E)),
   DemoStep.dWait 3000,
   DemoStep.dGoHome]

/-- Runs the demonstration steps: each `move` whose result is failure exits
through `display_error_and_exit` (exit status `errStatus`, since the missing
implementation file defines it); a fully successful run ends in
`prompt_and_exit(0)`. -/
def runSteps (moveOk : Frame → Bool) (errStatus : ℤ) :
    List DemoStep → List RobotAction × ℤ
  | [] => ([RobotAction.promptAndExit 0], 0)
  | DemoStep.dGoHome :: rest =>
      let r := runSteps moveOk errStatus rest
      (RobotAction.goHomeCmd :: r.1, r.2)
  | DemoStep.dWait ms :: rest =>
      let r := runSteps moveOk errStatus rest
      (RobotAction.waitMs ms :: r.1, r.2)
  | DemoStep.dPrint s :: rest =>
      let r := runSteps moveOk errStatus rest
      (RobotAction.printMsg s :: r.1, r.2)
  | DemoStep.dGrasp a :: rest =>
      let r := runSteps moveOk errStatus rest
      (RobotAction.graspCmd a :: r.1, r.2)
  | DemoStep.dMove F :: rest =>
      if moveOk F then
        let r := runSteps moveOk errStatus rest
        (RobotAction.moveCmd F :: r.1, r.2)
      else
        ([RobotAction.moveCmd F,
          RobotAction.displayErrorAndExit "move error ... quitting\n"], errStatus)

/-- The three possible outcomes of reading `robotProgrammingInput.txt`:
`fopen` fails, `fscanf` hits end-of-file before any filename, or a
configuration filename is read. -/
inductive InputFileState
  | openFailure
  | emptyFile
  | providesFilename (filename : String)

/-- The `main` function of `robotProgrammingApplication.cpp`, as a function
from the input-file state (and the environment parameters of the missing
implementation file) to the list of observable actions and the exit
status. -/
noncomputable def mainProg (input : InputFileState) (eff gripperOpen : ℝ)
    (moveOk : Frame → Bool) (errStatus : ℤ) : List RobotAction × ℤ :=
  match input with
  | InputFileState.openFailure =>
      ([RobotAction.printMsg "Error can't open input robotProgrammingInput.txt\n",
        RobotAction.promptAndExit 0], 0)
  | InputFileState.emptyFile => ([], 0)
  | InputFileState.providesFilename f =>
      let r := runSteps moveOk errStatus (demoSteps eff gripperOpen)
      (RobotAction.readConfig f :: r.1, r.2)

/- ## Concrete configurations for the spec's example scenarios -/

/-- A configuration with every joint at home 1500 µs, calibration
10 µs/deg and physical-assembly sign −1 (the spec's example scenario 3). -/
def exampleConfig : RobotConfig :=
  ⟨500, fun _ => 0, fun _ => 1500, fun _ => 10, fun _ => -1, WristType.lightweight⟩

/-- The gripper calibration of the spec's example scenario 4:
fully-open 500 µs, fully-closed 2500 µs. -/
def exampleGripper : GripperCalibration := ⟨500, 2500, 30⟩

/-- A heavy-duty-wrist configuration, otherwise identical to
`lightConfig`. -/
def heavyConfig : RobotConfig :=
  ⟨500, fun _ => 0, fun _ => 1500, fun _ => 10, fun _ => 1, WristType.heavyduty⟩

/-- A lightweight-wrist configuration, otherwise identical to
`heavyConfig`. -/
def lightConfig : RobotConfig :=
  ⟨500, fun _ => 0, fun _ => 1500, fun _ => 10, fun _ => 1, WristType.lightweight⟩

/-- A pose extraction that targets the point 400 mm straight out along the
x axis (the spec's example scenario 2, beyond the 333 mm reach). -/
def farPoseExtract : Frame → Pose := fun _ => ⟨400, 0, 0, 0, 0⟩

/- ## Helper lemmas -/

theorem wristD2_eq (x y z : ℝ) : wristD2 x y z = x ^ 2 + y ^ 2 + z ^ 2 := by
  unfold wristD2
  rw [Real.sq_sqrt (by positivity)]

theorem cosElbowArg_lt_neg_one {x y z : ℝ}
    (h : 333 ^ 2 < x ^ 2 + y ^ 2 + z ^ 2) : cosElbowArg x y z < -1 := by
  unfold cosElbowArg humerus ulna
  rw [wristD2_eq, div_lt_iff₀ (by norm_num : (0 : ℝ) < 2 * 146 * 187)]
  nlinarith

theorem not_reachable_of_far {x y z : ℝ}
    (h : 333 ^ 2 < x ^ 2 + y ^ 2 + z ^ 2) : ¬ reachable x y z := by
  intro hr
  exact absurd hr.1 (not_le.mpr (cosElbowArg_lt_neg_one h))

theorem ik_eq_none_of_not_reachable (w : WristType) {x y z : ℝ} (p r : ℝ)
    (h : ¬ reachable x y z) : ik w x y z p r = none := by
  unfold ik
  rw [if_neg h]

theorem ik_eq_none_of_far (w : WristType) {x y z : ℝ} (p r : ℝ)
    (h : 333 ^ 2 < x ^ 2 + y ^ 2 + z ^ 2) : ik w x y z p r = none :=
  ik_eq_none_of_not_reachable w p r (not_reachable_of_far h)

theorem move_eq_of_ik_none {cfg : RobotConfig} {extract : Frame → Pose}
    {F : Frame} (h : ikP cfg.wrist (extract F) = none) :
    move cfg extract F = (MotionResult.unreachablePoseError, []) := by
  unfold move
  rw [h]

theorem dd2_ge (e : ℝ) : 1681 ≤ dd2 e := by
  unfold dd2 humerus ulna
  nlinarith [Real.neg_one_le_cos e]

theorem sqrt_dd2_pos (e : ℝ) : 0 < Real.sqrt (dd2 e) :=
  Real.sqrt_pos.mpr (by linarith [dd2_ge e])

theorem sq_sqrt_dd2 (e : ℝ) : Real.sqrt (dd2 e) ^ 2 = dd2 e :=
  Real.sq_sqrt (by linarith [dd2_ge e])

theorem arm_sq_le_dd2 (e : ℝ) : (humerus + ulna * Real.cos e) ^ 2 ≤ dd2 e := by
  unfold dd2
  nlinarith [Real.sin_sq_add_cos_sq e, sq_nonneg (ulna * Real.sin e)]

theorem arm_div_bounds (e : ℝ) :
    -1 ≤ (humerus + ulna * Real.cos e) / Real.sqrt (dd2 e) ∧
    (humerus + ulna * Real.cos e) / Real.sqrt (dd2 e) ≤ 1 := by
  have hdd := sqrt_dd2_pos e
  have hsq := sq_sqrt_dd2 e
  have hle := arm_sq_le_dd2 e
  constructor
  · rw [le_div_iff₀ hdd]
    nlinarith [sq_nonneg (humerus + ulna * Real.cos e + Real.sqrt (dd2 e))]
  · rw [div_le_one hdd]
    nlinarith [sq_nonneg (humerus + ulna * Real.cos e - Real.sqrt (dd2 e))]

theorem cos_shoulderTriangleAngle (e : ℝ) :
    Real.cos (shoulderTriangleAngle e) =
      (humerus + ulna * Real.cos e) / Real.sqrt (dd2 e) := by
  unfold shoulderTriangleAngle
  exact Real.cos_arccos (arm_div_bounds e).1 (arm_div_bounds e).2

theorem sin_shoulderTriangleAngle (e : ℝ) (he1 : -π ≤ e) (he2 : e ≤ 0) :
    Real.sin (shoulderTriangleAngle e) =
      -(ulna * Real.sin e) / Real.sqrt (dd2 e) := by
  have hdd := sqrt_dd2_pos e
  have hsq := sq_sqrt_dd2 e
  have hsin : Real.sin e ≤ 0 := by
    have : Real.sin (-e) ≥ 0 :=
      Real.sin_nonneg_of_nonneg_of_le_pi (by linarith) (by linarith)
    rw [Real.sin_neg] at this
    linarith
  unfold shoulderTriangleAngle
  rw [Real.sin_arccos]
  have key : 1 - ((humerus + ulna * Real.cos e) / Real.sqrt (dd2 e)) ^ 2 =
      (-(ulna * Real.sin e) / Real.sqrt (dd2 e)) ^ 2 := by
    rw [div_pow, div_pow, hsq]
    rw [eq_div_iff (by linarith [dd2_ge e] : dd2 e ≠ 0)]
    rw [sub_mul, div_mul_cancel₀ _ (by linarith [dd2_ge e] : dd2 e ≠ 0)]
    unfold dd2
    nlinarith [Real.sin_sq_add_cos_sq e]
  have hnum : 0 ≤ -(ulna * Real.sin e) := by
    unfold ulna
    nlinarith
  rw [key]
  exact Real.sqrt_sq (div_nonneg hnum (le_of_lt hdd))

theorem planar_reach (S e : ℝ) (he1 : -π ≤ e) (he2 : e ≤ 0) :
    humerus * Real.cos S + ulna * Real.cos (S + e) =
      Real.sqrt (dd2 e) * Real.cos (S - shoulderTriangleAngle e) ∧
    humerus * Real.sin S + ulna * Real.sin (S + e) =
      Real.sqrt (dd2 e) * Real.sin (S - shoulderTriangleAngle e) := by
  have hc := cos_shoulderTriangleAngle e
  have hs := sin_shoulderTriangleAngle e he1 he2
  have hdd := sqrt_dd2_pos e
  have hne : Real.sqrt (dd2 e) ≠ 0 := ne_of_gt hdd
  constructor
  · rw [Real.cos_sub, hc, hs, Real.cos_add]
    field_simp
    ring
  · rw [Real.sin_sub, hc, hs, Real.sin_add]
    field_simp
    ring

theorem atan2_polar {d θ : ℝ} (hd : 0 < d) (hθ1 : -π < θ) (hθ2 : θ ≤ π) :
    atan2 (d * Real.sin θ) (d * Real.cos θ) = θ := by
  unfold atan2
  have h1 : (⟨d * Real.cos θ, d * Real.sin θ⟩ : ℂ) =
      (d : ℂ) * (Real.cos θ + Real.sin θ * Complex.I) := by
    rw [Complex.mk_eq_add_mul_I]
    push_cast
    ring
  rw [h1, Complex.arg_real_mul _ hd, Complex.ofReal_cos, Complex.ofReal_sin,
    Complex.arg_cos_add_sin_mul_I (Set.mem_Ioc.mpr ⟨hθ1, hθ2⟩)]

theorem polar_of_point {r z : ℝ} (h : 0 < r ^ 2 + z ^ 2) :
    Real.sqrt (r ^ 2 + z ^ 2) * Real.cos (atan2 z r) = r ∧
    Real.sqrt (r ^ 2 + z ^ 2) * Real.sin (atan2 z r) = z := by
  have habs : Complex.abs ⟨r, z⟩ = Real.sqrt (r ^ 2 + z ^ 2) := by
    rw [Complex.abs_apply, Complex.normSq_mk]
    congr 1
    ring
  have hne : (⟨r, z⟩ : ℂ) ≠ 0 := by
    intro hc
    have hr : r = 0 := by simpa using congrArg Complex.re hc
    have hz : z = 0 := by simpa using congrArg Complex.im hc
    rw [hr, hz] at h
    norm_num at h
  have hs : Real.sqrt (r ^ 2 + z ^ 2) ≠ 0 :=
    ne_of_gt (Real.sqrt_pos.mpr h)
  constructor
  · show Real.sqrt (r ^ 2 + z ^ 2) * Real.cos (Complex.arg ⟨r, z⟩) = r
    rw [Complex.cos_arg hne, habs]
    field_simp
  · show Real.sqrt (r ^ 2 + z ^ 2) * Real.sin (Complex.arg ⟨r, z⟩) = z
    rw [Complex.sin_arg, habs]
    show Real.sqrt (r ^ 2 + z ^ 2) *
      ((⟨r, z⟩ : ℂ).im / Real.sqrt (r ^ 2 + z ^ 2)) = z
    field_simp

theorem polar_sin_cos_xy (x y : ℝ) :
    Real.sqrt (x ^ 2 + y ^ 2) * Real.sin (atan2 x y) = x ∧
    Real.sqrt (x ^ 2 + y ^ 2) * Real.cos (atan2 x y) = y := by
  rcases eq_or_lt_of_le (by positivity : (0 : ℝ) ≤ x ^ 2 + y ^ 2) with h | h
  · have hx : x = 0 := by nlinarith [sq_nonneg x, sq_nonneg y]
    have hy : y = 0 := by nlinarith [sq_nonneg x, sq_nonneg y]
    rw [hx, hy]
    norm_num
  · have h' : 0 < y ^ 2 + x ^ 2 := by linarith [add_comm (x ^ 2) (y ^ 2) ▸ h]
    have hp := polar_of_point h'
    have hcomm : x ^ 2 + y ^ 2 = y ^ 2 + x ^ 2 := by ring
    rw [hcomm]
    exact ⟨hp.2, hp.1⟩

theorem ik_planar_roundtrip (w : WristType) (base S e wp wr : ℝ)
    (he1 : -π ≤ e) (he2 : e ≤ 0) (hb1 : -π < base) (hb2 : base ≤ π)
    (hth1 : -(π / 2) < S - shoulderTriangleAngle e)
    (hth2 : S - shoulderTriangleAngle e < π / 2) :
    ik w ((humerus * Real.cos S + ulna * Real.cos (S + e)) * Real.sin base)
      ((humerus * Real.cos S + ulna * Real.cos (S + e)) * Real.cos base)
      (humerus * Real.sin S + ulna * Real.sin (S + e))
      (S + e + wp)
      (match w with
       | WristType.heavyduty => -wr
       | WristType.lightweight => wr) =
      some ⟨base, S, e, wp, wr⟩ := by
  have hpi := Real.pi_pos
  have hdd := sqrt_dd2_pos e
  have hsq := sq_sqrt_dd2 e
  have hplanar := planar_reach S e he1 he2
  set R := humerus * Real.cos S + ulna * Real.cos (S + e) with hRdef
  set Z := humerus * Real.sin S + ulna * Real.sin (S + e) with hZdef
  have hcos : 0 < Real.cos (S - shoulderTriangleAngle e) :=
    Real.cos_pos_of_mem_Ioo (Set.mem_Ioo.mpr ⟨hth1, hth2⟩)
  have hrpos : 0 < R := by
    rw [hplanar.1]
    exact mul_pos hdd hcos
  have hxy : (R * Real.sin base) ^ 2 + (R * Real.cos base) ^ 2 = R ^ 2 := by
    linear_combination R ^ 2 * Real.sin_sq_add_cos_sq base
  have hsqrtxy :
      Real.sqrt ((R * Real.sin base) ^ 2 + (R * Real.cos base) ^ 2) = R := by
    rw [hxy]
    exact Real.sqrt_sq (le_of_lt hrpos)
  have hW : wristD2 (R * Real.sin base) (R * Real.cos base) Z = dd2 e := by
    unfold wristD2
    rw [hxy, Real.sqrt_sq (le_of_lt hrpos), hplanar.1, hplanar.2]
    linear_combination
      Real.sqrt (dd2 e) ^ 2 *
        Real.sin_sq_add_cos_sq (S - shoulderTriangleAngle e) + hsq
  have hElb :
      cosElbowArg (R * Real.sin base) (R * Real.cos base) Z = -Real.cos e := by
    unfold cosElbowArg
    rw [hW]
    unfold dd2 humerus ulna
    field_simp
    ring
  have hSh : cosShoulderArg (R * Real.sin base) (R * Real.cos base) Z =
      (humerus + ulna * Real.cos e) / Real.sqrt (dd2 e) := by
    unfold cosShoulderArg
    rw [hW]
    rw [div_eq_div_iff
      (ne_of_gt (mul_pos (by norm_num [humerus] : (0 : ℝ) < 2 * humerus) hdd))
      (ne_of_gt hdd)]
    unfold dd2
    ring
  have hguard : reachable (R * Real.sin base) (R * Real.cos base) Z := by
    unfold reachable
    refine ⟨?_, ?_, ?_, ?_⟩
    · rw [hElb]
      linarith [Real.cos_le_one e]
    · rw [hElb]
      linarith [Real.neg_one_le_cos e]
    · rw [hSh]
      exact (arm_div_bounds e).1
    · rw [hSh]
      exact (arm_div_bounds e).2
  unfold ik
  rw [if_pos hguard]
  simp only [Option.some.injEq, JointAngles.mk.injEq]
  refine ⟨?_, ?_, ?_, ?_, ?_⟩
  · exact atan2_polar hrpos hb1 hb2
  · rw [hsqrtxy, hSh,
      show Real.arccos ((humerus + ulna * Real.cos e) / Real.sqrt (dd2 e)) =
        shoulderTriangleAngle e from rfl,
      hplanar.1, hplanar.2,
      atan2_polar hdd (by linarith) (by linarith)]
    ring
  · rw [hElb, Real.arccos_neg, ← Real.cos_neg e,
      Real.arccos_cos (by linarith) (by linarith)]
    ring
  · rw [hsqrtxy, hSh,
      show Real.arccos ((humerus + ulna * Real.cos e) / Real.sqrt (dd2 e)) =
        shoulderTriangleAngle e from rfl,
      hElb, Real.arccos_neg, ← Real.cos_neg e,
      Real.arccos_cos (by linarith) (by linarith),
      hplanar.1, hplanar.2,
      atan2_polar hdd (by linarith) (by linarith)]
    ring
  · cases w <;> simp

theorem ik_fk_angles (w : WristType) (a : JointAngles) (h : inWorkspace a) :
    ikP w (fk w a) = some a := by
  obtain ⟨base, S, e, wp, wr⟩ := a
  unfold inWorkspace at h
  obtain ⟨he1, he2, hb1, hb2, hth1, hth2⟩ := h
  unfold ikP fk
  exact ik_planar_roundtrip w base S e wp wr he1 he2 hb1 hb2 hth1 hth2

theorem fk_ik_point (w : WristType) (x y z p r : ℝ) (hguard : reachable x y z) :
    ∃ a : JointAngles, ik w x y z p r = some a ∧ fk w a = ⟨x, y, z, p, r⟩ := by
  have h := hguard
  unfold reachable at h
  obtain ⟨hE1, hE2, hS1, hS2⟩ := h
  have hpi := Real.pi_pos
  have hd2 : 1681 ≤ wristD2 x y z := by
    unfold cosElbowArg humerus ulna at hE2
    rw [div_le_one (by norm_num)] at hE2
    linarith
  have hdpos : 0 < Real.sqrt (wristD2 x y z) :=
    Real.sqrt_pos.mpr (by linarith)
  have hpos : 0 < Real.sqrt (x ^ 2 + y ^ 2) ^ 2 + z ^ 2 := by
    have hd2' := hd2
    unfold wristD2 at hd2'
    linarith
  have hE0 : 0 ≤ Real.arccos (cosElbowArg x y z) := Real.arccos_nonneg _
  have hEpi : Real.arccos (cosElbowArg x y z) ≤ π := Real.arccos_le_pi _
  have he1 : -π ≤ Real.arccos (cosElbowArg x y z) - π := by linarith
  have he2 : Real.arccos (cosElbowArg x y z) - π ≤ 0 := by linarith
  have hcosE : Real.cos (Real.arccos (cosElbowArg x y z)) = cosElbowArg x y z :=
    Real.cos_arccos hE1 hE2
  have hcose : Real.cos (Real.arccos (cosElbowArg x y z) - π) =
      -cosElbowArg x y z := by
    rw [show Real.arccos (cosElbowArg x y z) - π =
        -(π - Real.arccos (cosElbowArg x y z)) by ring,
      Real.cos_neg, Real.cos_pi_sub, hcosE]
  have hdd2 : dd2 (Real.arccos (cosElbowArg x y z) - π) = wristD2 x y z := by
    unfold dd2
    rw [hcose]
    unfold cosElbowArg humerus ulna
    field_simp
  have hAeq : shoulderTriangleAngle (Real.arccos (cosElbowArg x y z) - π) =
      Real.arccos (cosShoulderArg x y z) := by
    unfold shoulderTriangleAngle
    rw [hdd2]
    congr 1
    rw [hcose]
    unfold cosShoulderArg cosElbowArg humerus ulna
    field_simp
    ring
  have hplanar := planar_reach
    (atan2 z (Real.sqrt (x ^ 2 + y ^ 2)) + Real.arccos (cosShoulderArg x y z))
    (Real.arccos (cosElbowArg x y z) - π) he1 he2
  have hsub : (atan2 z (Real.sqrt (x ^ 2 + y ^ 2)) +
        Real.arccos (cosShoulderArg x y z)) -
      shoulderTriangleAngle (Real.arccos (cosElbowArg x y z) - π) =
      atan2 z (Real.sqrt (x ^ 2 + y ^ 2)) := by
    rw [hAeq]
    ring
  rw [hdd2, hsub] at hplanar
  have hpol1 : Real.sqrt (wristD2 x y z) *
      Real.cos (atan2 z (Real.sqrt (x ^ 2 + y ^ 2))) =
      Real.sqrt (x ^ 2 + y ^ 2) := (polar_of_point hpos).1
  have hpol2 : Real.sqrt (wristD2 x y z) *
      Real.sin (atan2 z (Real.sqrt (x ^ 2 + y ^ 2))) = z :=
    (polar_of_point hpos).2
  refine ⟨⟨atan2 x y,
    atan2 z (Real.sqrt (x ^ 2 + y ^ 2)) + Real.arccos (cosShoulderArg x y z),
    Real.arccos (cosElbowArg x y z) - π,
    p - ((atan2 z (Real.sqrt (x ^ 2 + y ^ 2)) +
      Real.arccos (cosShoulderArg x y z)) +
      (Real.arccos (cosElbowArg x y z) - π)),
    match w with
    | WristType.heavyduty => -r
    | WristType.lightweight => r⟩, ?_, ?_⟩
  · unfold ik
    rw [if_pos hguard]
  · unfold fk
    dsimp only
    simp only [Pose.mk.injEq]
    refine ⟨?_, ?_, ?_, ?_, ?_⟩
    · rw [hplanar.1, hpol1]
      exact (polar_sin_cos_xy x y).1
    · rw [hplanar.1, hpol1]
      exact (polar_sin_cos_xy x y).2
    · rw [hplanar.2, hpol2]
    · ring
    · cases w <;> simp

theorem reachable_example : reachable 0 200 50 := by
  have hW : wristD2 0 200 50 = 42500 := by
    rw [wristD2_eq]
    norm_num
  have hsqrt_pos : 0 < Real.sqrt (42500 : ℝ) :=
    Real.sqrt_pos.mpr (by norm_num)
  have hsqrt_sq : Real.sqrt (42500 : ℝ) ^ 2 = 42500 :=
    Real.sq_sqrt (by norm_num)
  unfold reachable cosElbowArg cosShoulderArg humerus ulna
  rw [hW]
  refine ⟨by norm_num, by norm_num, ?_, ?_⟩
  · rw [le_div_iff₀ (by positivity)]
    nlinarith [Real.sqrt_nonneg (42500 : ℝ)]
  · rw [div_le_one (by positivity)]
    nlinarith [Real.sqrt_nonneg (42500 : ℝ)]

theorem compose_invert_eq_invert_compose (A B : Frame) (hA : A.orthonormal) :
    compose (invert B) (invert A) = invert (compose A B) := by
  have hA' : A.R.transpose * A.R = 1 := hA
  simp only [compose, invert, Frame.mk.injEq]
  refine ⟨(Matrix.transpose_mul A.R B.R).symm, ?_⟩
  rw [Matrix.transpose_mul]
  simp only [Matrix.mulVec_add, Matrix.mulVec_neg, Matrix.mulVec_mulVec]
  rw [mul_assoc, hA', mul_one]
  abel

/- ## Claim theorems -/

/-- C1: for every target pose whose wrist point lies farther from the
shoulder than the 333 mm total reach — and more generally whenever a
law-of-cosines argument of the elbow solve falls outside [-1, 1] — the IK
solver reports an unreachable-pose failure (`none`): it never clamps the
argument and never returns a numeric joint-angle result. -/
theorem C1_unreachable_pose_rejected :
    (∀ (w : WristType) (x y z p r : ℝ), 333 ^ 2 < x ^ 2 + y ^ 2 + z ^ 2 →
      ik w x y z p r = none) ∧
    (∀ (w : WristType) (x y z p r : ℝ), ¬ reachable x y z →
      ik w x y z p r = none) :=
  ⟨fun w _ _ _ p r h => ik_eq_none_of_far w p r h,
   fun w _ _ _ p r h => ik_eq_none_of_not_reachable w p r h⟩

/-- Witness for C1 at the spec's scenario 2: horizontal distance 400 mm
exceeds the 333 mm reach and the solver returns no result. -/
theorem C1_unreachable_pose_rejected_witness :
    (333 : ℝ) ^ 2 < 400 ^ 2 + 0 ^ 2 + 0 ^ 2 ∧
    ik WristType.lightweight 400 0 0 0 0 = none :=
  ⟨by norm_num,
   C1_unreachable_pose_rejected.1 WristType.lightweight 400 0 0 0 0 (by norm_num)⟩

/-- C2: for every joint-angle tuple in the reachable workspace of the
solver's fixed branch, forward kinematics (built from the same 146 mm and
187 mm link lengths) followed by the IK solver reproduces the original
joint angles exactly, hence within any tolerance; and for the spec's
scenario-1 target (wrist point at horizontal distance 200 mm, height
50 mm, identity wrist pitch/roll) the solver returns a joint tuple whose
forward kinematics reproduces the target point exactly (within 1 mm). -/
theorem C2_roundtrip :
    (∀ (w : WristType) (a : JointAngles), inWorkspace a →
      ikP w (fk w a) = some a) ∧
    (∃ a : JointAngles, ik WristType.lightweight 0 200 50 0 0 = some a ∧
      (fk WristType.lightweight a).x = 0 ∧
      (fk WristType.lightweight a).y = 200 ∧
      (fk WristType.lightweight a).z = 50) := by
  constructor
  · exact fun w a h => ik_fk_angles w a h
  · obtain ⟨a, h1, h2⟩ :=
      fk_ik_point WristType.lightweight 0 200 50 0 0 reachable_example
    exact ⟨a, h1, by rw [h2], by rw [h2], by rw [h2]⟩

/-- Witness for C2 at the joint tuple with elbow folded 90° and every
other joint at zero. -/
theorem C2_roundtrip_witness :
    inWorkspace ⟨0, 0, -(π / 2), 0, 0⟩ ∧
    ikP WristType.lightweight
      (fk WristType.lightweight ⟨0, 0, -(π / 2), 0, 0⟩) =
      some ⟨0, 0, -(π / 2), 0, 0⟩ := by
  have hpi := Real.pi_pos
  have hA0 : 0 ≤ shoulderTriangleAngle (-(π / 2)) := Real.arccos_nonneg _
  have hAlt : shoulderTriangleAngle (-(π / 2)) < π / 2 := by
    unfold shoulderTriangleAngle
    rw [Real.arccos_lt_pi_div_two]
    have hc : Real.cos (-(π / 2)) = 0 := by
      rw [Real.cos_neg, Real.cos_pi_div_two]
    rw [hc]
    have h146 : humerus + ulna * 0 = 146 := by norm_num [humerus, ulna]
    rw [h146]
    exact div_pos (by norm_num) (sqrt_dd2_pos _)
  have hw : inWorkspace ⟨0, 0, -(π / 2), 0, 0⟩ := by
    unfold inWorkspace
    dsimp only
    refine ⟨by linarith, by linarith, by linarith, by linarith, ?_, ?_⟩
    · have hc2 : Real.cos (-(π / 2)) = 0 := by
        rw [Real.cos_neg, Real.cos_pi_div_two]
      linarith [hAlt]
    · linarith [hA0]
  exact ⟨hw, C2_roundtrip.1 WristType.lightweight _ hw⟩

/-- C3: the setpoint mapper computes
`pulse_width[i] = home[i] + direction[i] * angle_degrees[i] * degree_calibration[i]`
with the per-joint direction fixed at configuration-load time; with home
1500 µs, calibration 10 µs/deg and direction −1, a commanded 20° maps to
exactly 1300 µs. -/
theorem C3_setpoint_mapping :
    (∀ (cfg : RobotConfig) (i : Fin 5) (a : ℝ),
      pulseWidth cfg i a =
        cfg.home i + loadDirection cfg i * a * cfg.degreeCal i) ∧
    (∀ (cfg : RobotConfig) (i : Fin 5), cfg.home i = 1500 →
      cfg.degreeCal i = 10 → loadDirection cfg i = -1 →
      pulseWidth cfg i 20 = 1300) := by
  constructor
  · intro cfg i a
    rfl
  · intro cfg i h1 h2 h3
    unfold pulseWidth
    rw [h1, h2, h3]
    norm_num

/-- Witness for C3 at the spec's scenario 3 configuration. -/
theorem C3_setpoint_mapping_witness :
    exampleConfig.home 2 = 1500 ∧ exampleConfig.degreeCal 2 = 10 ∧
    loadDirection exampleConfig 2 = -1 ∧ pulseWidth exampleConfig 2 20 = 1300 :=
  ⟨rfl, rfl, by simp [loadDirection, exampleConfig, rollJoint],
   C3_setpoint_mapping.2 exampleConfig 2 rfl rfl
     (by simp [loadDirection, exampleConfig, rollJoint])⟩

/-- C4: for every joint, commanding joint angle 0 maps to exactly that
joint's configured home pulse width. -/
theorem C4_home_at_zero_angle :
    ∀ (cfg : RobotConfig) (i : Fin 5), pulseWidth cfg i 0 = cfg.home i := by
  intro cfg i
  simp [pulseWidth]

/-- C5: `move` is atomic with respect to transmission — it either fully
succeeds in issuing exactly one ServoCommand or is rejected before
transmission; in particular, whenever IK fails, `move` returns failure
having transmitted nothing. -/
theorem C5_move_atomic :
    ∀ (cfg : RobotConfig) (extract : Frame → Pose) (F : Frame),
      (ikP cfg.wrist (extract F) = none →
        move cfg extract F = (MotionResult.unreachablePoseError, [])) ∧
      (∀ a, ikP cfg.wrist (extract F) = some a →
        move cfg extract F = (MotionResult.success, [buildCommand cfg a])) ∧
      ((move cfg extract F).2 = [] ∨ ∃ c, (move cfg extract F).2 = [c]) := by
  intro cfg extract F
  refine ⟨fun h => move_eq_of_ik_none h, fun a h => ?_, ?_⟩
  · unfold move
    rw [h]
  · cases h : ikP cfg.wrist (extract F) with
    | none =>
        left
        simp [move, h]
    | some a =>
        right
        exact ⟨buildCommand cfg a, by simp [move, h]⟩

/-- Witness for C5: a target pose beyond reach makes `move` fail with
no command transmitted. -/
theorem C5_move_atomic_witness :
    ikP exampleConfig.wrist (farPoseExtract idFrame) = none ∧
    move exampleConfig farPoseExtract idFrame =
      (MotionResult.unreachablePoseError, []) := by
  have h : ikP exampleConfig.wrist (farPoseExtract idFrame) = none := by
    show ik WristType.lightweight 400 0 0 0 0 = none
    exact ik_eq_none_of_far _ _ _ (by norm_num)
  exact ⟨h, (C5_move_atomic exampleConfig farPoseExtract idFrame).1 h⟩

/-- C6: every requested gripper aperture outside the calibrated bounds is
rejected with `GripperRangeError` before any transmission; it is never
clamped into range. -/
theorem C6_gripper_range_rejected :
    ∀ (g : GripperCalibration) (ch : ℕ) (sp a : ℝ),
      (a < 0 ∨ g.maxAperture < a) →
      grasp g ch sp a = (MotionResult.gripperRangeError, []) := by
  intro g ch sp a h
  unfold grasp
  rw [if_pos h]

/-- Witness for C6 at the spec's scenario 4: `grasp(-5)` is rejected with
nothing transmitted. -/
theorem C6_gripper_range_rejected_witness :
    ((-5 : ℝ) < 0 ∨ exampleGripper.maxAperture < -5) ∧
    grasp exampleGripper 5 500 (-5) = (MotionResult.gripperRangeError, []) :=
  ⟨Or.inl (by norm_num),
   C6_gripper_range_rejected exampleGripper 5 500 (-5) (Or.inl (by norm_num))⟩

/-- C7: the wrist-roll direction multiplier is reversed exactly when the
configured wrist type is heavy-duty, so identical nonzero commanded
wrist-roll angles give pulse widths offset from home in opposite
directions under the two wrist types. -/
theorem C7_wrist_roll_reversed :
    (∀ cfg : RobotConfig,
      (cfg.wrist = WristType.heavyduty →
        loadDirection cfg rollJoint = -(cfg.baseDirection rollJoint)) ∧
      (cfg.wrist = WristType.lightweight →
        loadDirection cfg rollJoint = cfg.baseDirection rollJoint)) ∧
    (∀ (cfgH cfgL : RobotConfig) (a : ℝ),
      cfgH.wrist = WristType.heavyduty → cfgL.wrist = WristType.lightweight →
      cfgH.home rollJoint = cfgL.home rollJoint →
      cfgH.degreeCal rollJoint = cfgL.degreeCal rollJoint →
      cfgH.baseDirection rollJoint = cfgL.baseDirection rollJoint →
      a ≠ 0 → cfgL.baseDirection rollJoint ≠ 0 → cfgL.degreeCal rollJoint ≠ 0 →
      pulseWidth cfgH rollJoint a - cfgH.home rollJoint =
        -(pulseWidth cfgL rollJoint a - cfgL.home rollJoint) ∧
      pulseWidth cfgH rollJoint a - cfgH.home rollJoint ≠ 0) := by
  constructor
  · intro cfg
    constructor
    · intro h
      simp [loadDirection, h]
    · intro h
      simp [loadDirection, h]
  · intro cfgH cfgL a hH hL hhome hcal hdir ha hbd hdc
    have h1 : loadDirection cfgH rollJoint = -(cfgH.baseDirection rollJoint) := by
      simp [loadDirection, hH]
    have h2 : loadDirection cfgL rollJoint = cfgL.baseDirection rollJoint := by
      simp [loadDirection, hL]
    unfold pulseWidth
    rw [h1, h2, hhome, hcal, hdir]
    constructor
    · ring
    · have heq : cfgL.home rollJoint +
          -(cfgL.baseDirection rollJoint) * a * cfgL.degreeCal rollJoint -
          cfgL.home rollJoint =
          -(cfgL.baseDirection rollJoint * a * cfgL.degreeCal rollJoint) := by
        ring
      rw [heq]
      exact neg_ne_zero.mpr (mul_ne_zero (mul_ne_zero hbd ha) hdc)

/-- Witness for C7: heavy-duty and lightweight configurations, identical
otherwise, at a commanded 20° wrist roll. -/
theorem C7_wrist_roll_reversed_witness :
    heavyConfig.wrist = WristType.heavyduty ∧
    lightConfig.wrist = WristType.lightweight ∧
    ((20 : ℝ) ≠ 0 ∧ lightConfig.baseDirection rollJoint ≠ 0 ∧
      lightConfig.degreeCal rollJoint ≠ 0) ∧
    (pulseWidth heavyConfig rollJoint 20 - heavyConfig.home rollJoint =
      -(pulseWidth lightConfig rollJoint 20 - lightConfig.home rollJoint) ∧
     pulseWidth heavyConfig rollJoint 20 - heavyConfig.home rollJoint ≠ 0) :=
  ⟨rfl, rfl, ⟨by norm_num, by norm_num [lightConfig], by norm_num [lightConfig]⟩,
   C7_wrist_roll_reversed.2 heavyConfig lightConfig 20 rfl rfl rfl rfl rfl
     (by norm_num) (by norm_num [lightConfig]) (by norm_num [lightConfig])⟩

/-- C8: for all Frames A and B with orthonormal rotation (the spec's Frame
invariant), `compose(invert(B), invert(A))` equals `invert(compose(A, B))`
— exactly, hence within any floating-point tolerance. -/
theorem C8_invert_antihomomorphism :
    ∀ A B : Frame, A.orthonormal →
      compose (invert B) (invert A) = invert (compose A B) :=
  fun A B hA => compose_invert_eq_invert_compose A B hA

/-- Witness for C8 at the identity Frame. -/
theorem C8_invert_antihomomorphism_witness :
    Frame.orthonormal idFrame ∧
    compose (invert idFrame) (invert idFrame) =
      invert (compose idFrame idFrame) :=
  ⟨by simp [Frame.orthonormal, idFrame],
   C8_invert_antihomomorphism idFrame idFrame
     (by simp [Frame.orthonormal, idFrame])⟩

/-- C9: no Frame operation mutates an existing Frame — the demo's
assignment `T5 = inv(Z)*object_grasp*object_approach*inv(E)` leaves every
operand unchanged, and re-evaluating the same composition expression over
the same operands yields the same Frame. -/
theorem C9_frames_immutable :
    ∀ e : DemoEnv,
      (stepT5 e).Z = e.Z ∧ (stepT5 e).E = e.E ∧
      (stepT5 e).object_grasp = e.object_grasp ∧
      (stepT5 e).object_approach = e.object_approach ∧
      demoT5 (stepT5 e) = demoT5 e :=
  fun _ => ⟨rfl, rfl, rfl, rfl, rfl⟩

/-- C10: if `robotProgrammingInput.txt` opens but contains no configuration
filename (`fscanf` returns EOF), `main` exits with status 0 having read no
configuration, issued no robot command and printed nothing. -/
theorem C10_empty_input_silent_exit :
    ∀ (eff gripperOpen : ℝ) (moveOk : Frame → Bool) (errStatus : ℤ),
      mainProg InputFileState.emptyFile eff gripperOpen moveOk errStatus =
        ([], 0) :=
  fun _ _ _ _ => rfl

end RobotArm
